import Mathlib

/-!
Shallow embedding of SergeevPavel/webgpu-playground (Rust, wgpu).

Source files embedded:
  * `src/state.rs`   — `State` (surface config, background color, camera),
    `State::resize`, `State::input`, `State::update`, `State::render`,
    `position_to_color`, the `VERTICES`/`INDICES` constants;
  * `src/depth_view.rs` — `DepthView::render`,
    `DepthView::create_depth_render_pipeline`;
  * `src/rotator.rs` — `Rotator::new`, `Rotator::update`;
  * `src/instances.rs` — `Instances::new`, `Instances::count`;
  * `src/mesh.rs`    — the cube `VERTICES`/`INDICES` constants.

GPU handles (device, queue, surface, buffers, bind-group objects) are
opaque: what matters to the claims is the sequence of recorded commands,
the mirrored uniform contents and the mutable configuration, so render
passes are embedded as explicit command lists, buffers as the values they
mirror, and surface acquisition as an explicit `Except` argument.
Machine floats feeding trigonometric formulas are embedded over `ℝ`;
grid/translation arithmetic, which is exact in `f32`, over `ℤ`.
-/

/-- Colors as produced by `wgpu::Color` (four `f64` channels). -/
structure Color where
  r : ℝ
  g : ℝ
  b : ℝ
  a : ℝ

/-- Embedding of `wgpu::SurfaceError` variants relevant to `State::render`. -/
inductive SurfaceError where
  | lost
  | outdated
  | timeout
  | outOfMemory
deriving DecidableEq

/-- Load operation of a render-pass attachment (`wgpu::LoadOp`). -/
inductive ColorLoadOp where
  | clear (c : Color)
  | load

/-- Load operation of a depth attachment, clearing to a given depth. -/
inductive DepthLoadOp where
  | clear (d : ℚ)
  | load
deriving DecidableEq

/-- Identities of the bind groups that appear in the embedded passes. -/
inductive BindGroupId where
  | diffuse
  | cameraGroup
  | rotationGroup
  | instancesGroup
  | depthTexture
deriving DecidableEq

/-- Commands recorded into a render pass, as issued by the source. -/
inductive Cmd where
  | setPipeline
  | setBindGroup (slot : ℕ) (group : BindGroupId)
  | setVertexBuffer (slot : ℕ)
  | setIndexBuffer
  | drawIndexed (indices : ℕ × ℕ) (baseVertex : ℤ) (instances : ℕ × ℕ)
  | draw (vertices : ℕ × ℕ) (instances : ℕ × ℕ)
deriving DecidableEq

/-- One recorded render pass: its color-attachment load op, its optional
depth attachment (with that attachment's load op), and its commands. -/
structure RenderPass where
  colorLoad : ColorLoadOp
  depthAttachment : Option DepthLoadOp
  cmds : List Cmd

/-- A command buffer is the ordered list of render passes recorded into
one encoder before `encoder.finish()`. -/
abbrev CommandBuffer := List RenderPass

/-- Embedding of `wgpu::SurfaceConfiguration`: the fields `State::resize` touches plus
the fields the spec says must be retained. Format and present mode are
opaque tokens. -/
structure SurfaceConfig where
  width : ℕ
  height : ℕ
  format : ℕ
  presentMode : ℕ
deriving DecidableEq

/-- Matrices of size 4×4, the embedding of `cgmath::Matrix4`. -/
abbrev Mat4 (α : Type) := Matrix (Fin 4) (Fin 4) α

/-- Modelled from the spec: `camera.rs` is not among the provided sources.
The external camera controller records pending motion from forwarded
events; `viewProj` stands for the view-projection matrix its motion state
determines, and `consumes` for the `process_events` return value, neither
of which the spec pins down further. -/
structure CameraController where
  pendingEvents : ℕ
  viewProj : Mat4 ℚ
  consumes : Bool

/-- Modelled from the spec: `CameraState` (from the missing `camera.rs`)
owns the camera controller and a uniform buffer mirroring the
view-projection matrix; `uniform` is the mirrored contents. -/
structure CameraState where
  controller : CameraController
  uniform : Mat4 ℚ

/-- The mutable fields of `State` (src/state.rs) that the embedded
operations read or write. Pipeline, buffers and bind-group handles are
immutable after creation and are represented by the constants recorded
into the command stream. -/
structure State where
  config : SurfaceConfig
  size : ℕ × ℕ
  backgroundColor : Color
  numIndices : ℕ
  camera : CameraState

/-- Embedding of `position_to_color` (src/state.rs): background color as a function of
the cursor position. -/
noncomputable def position_to_color (x y : ℝ) : Color :=
  { r := (Real.cos (x * Real.pi / 128) + 1) / 2
    g := (Real.sin (y * Real.pi / 128) + 1) / 2
    b := (Real.cos ((x + y) * Real.pi / 256) + 1) / 2
    a := 1 }

/-- Embedding of `State::resize` (src/state.rs:241-248). Returns the new state and
whether `surface.configure` was called. The guard in the source is
`new_size.width > 0 && new_size.height > 0`. -/
def State.resize (s : State) (w h : ℕ) : State × Bool :=
  if 0 < w ∧ 0 < h then
    ({ s with
        size := (w, h)
        config := { s.config with width := w, height := h } }, true)
  else
    (s, false)

/-- Window events relevant to `State::input`: a cursor move carrying a
position, or any other event (forwarded to the camera controller). -/
inductive Event where
  | cursorMoved (x y : ℝ)
  | other

/-- Modelled from the spec: `CameraController::process_events` (missing
`camera.rs`) records the event as pending motion and reports whether it
consumed the event. -/
def CameraController.processEvents (c : CameraController) (_e : Event) :
    Bool × CameraController :=
  (c.consumes, { c with pendingEvents := c.pendingEvents + 1 })

/-- Embedding of `State::input` (src/state.rs:250-260): a cursor move recomputes the
background color and is consumed; anything else goes to the controller. -/
noncomputable def State.input (s : State) (e : Event) : Bool × State :=
  match e with
  | .cursorMoved x y =>
      (true, { s with backgroundColor := position_to_color x y })
  | .other =>
      let (consumed, c) := s.camera.controller.processEvents e
      (consumed, { s with camera := { s.camera with controller := c } })

/-- Embedding of `State::update` (src/state.rs:262-264) calls `CameraState::update`,
which — modelled from the spec, `camera.rs` being absent — recomputes the
view-projection matrix from the controller state and uploads it to the
camera uniform buffer. -/
def State.update (s : State) : State :=
  { s with camera := { s.camera with uniform := s.camera.controller.viewProj } }

/-- The single render pass recorded by `State::render`
(src/state.rs:277-296): color cleared to the background color, no depth
attachment, pipeline + two bind groups + vertex/index buffers + one
indexed draw over the full index range with instance range `0..1`. -/
def State.mainPass (s : State) : RenderPass :=
  { colorLoad := .clear s.backgroundColor
    depthAttachment := none
    cmds :=
      [ .setPipeline
      , .setBindGroup 0 .diffuse
      , .setBindGroup 1 .cameraGroup
      , .setVertexBuffer 0
      , .setIndexBuffer
      , .drawIndexed (0, s.numIndices) 0 (0, 1) ] }

/-- Embedding of `State::render` (src/state.rs:266-303). `acq` is the result of
`surface.get_current_texture()`; `?` propagates its error. On success the
encoder records the single pass, the one finished command buffer is
submitted, the frame presented, and `Ok(())` returned. The state fields
are not written. -/
def State.render (s : State) (acq : Except SurfaceError Unit) :
    Except SurfaceError (CommandBuffer × State) :=
  match acq with
  | .error e => .error e
  | .ok _ => .ok ([State.mainPass s], s)

/-- The fixed-function facts about `DepthView::create_depth_render_pipeline`
(src/depth_view.rs:66-112) that the claims mention. -/
structure PipelineDesc where
  alphaBlending : Bool
  hasDepthStencil : Bool
  vertexBufferLayouts : ℕ
deriving DecidableEq

/-- Embedding of `DepthView::create_depth_render_pipeline` (src/depth_view.rs:66-112):
`blend: ALPHA_BLENDING`, `depth_stencil: None`, `buffers: &[]`. -/
def DepthView.create_depth_render_pipeline : PipelineDesc :=
  { alphaBlending := true
    hasDepthStencil := false
    vertexBufferLayouts := 0 }

/-- The overlay pass recorded by `DepthView::render`
(src/depth_view.rs:114-133): color attachment with `LoadOp::Load`, no
depth attachment, the depth-texture bind group at slot 0, and a
3-vertex, 1-instance draw. -/
def DepthView.overlayPass : RenderPass :=
  { colorLoad := .load
    depthAttachment := none
    cmds :=
      [ .setPipeline
      , .setBindGroup 0 .depthTexture
      , .draw (0, 3) (0, 1) ] }

/-- Embedding of `DepthView::render` (src/depth_view.rs:114-133) appends its render
pass to the passes already recorded into the encoder. -/
def DepthView.render (encoder : List RenderPass) : List RenderPass :=
  encoder ++ [DepthView.overlayPass]

/-- Embedding of `Vertex` (src/mesh.rs, src/state.rs): interleaved position and texture
coordinates. The `f32` components of every vertex are exact small
rationals. -/
structure Vertex where
  position : ℚ × ℚ × ℚ
  tex_coords : ℚ × ℚ
deriving DecidableEq

/-- Embedding of `VERTICES` (src/mesh.rs:63-73): the eight cube corners. -/
def Mesh.VERTICES : List Vertex :=
  [ ⟨(-0.5, -0.5, -0.5), (0, 0)⟩
  , ⟨(0.5, -0.5, -0.5), (1, 0)⟩
  , ⟨(0.5, 0.5, -0.5), (1, 1)⟩
  , ⟨(-0.5, 0.5, -0.5), (0, 1)⟩
  , ⟨(-0.5, -0.5, 0.5), (0, 0)⟩
  , ⟨(0.5, -0.5, 0.5), (1, 0)⟩
  , ⟨(0.5, 0.5, 0.5), (1, 1)⟩
  , ⟨(-0.5, 0.5, 0.5), (0, 1)⟩ ]

/-- Embedding of `INDICES` (src/mesh.rs:75-93): 36 `u16` indices, twelve triangles. -/
def Mesh.INDICES : List ℕ :=
  [ 0, 2, 1, 0, 3, 2
  , 1, 2, 6, 6, 5, 1
  , 4, 5, 6, 6, 7, 4
  , 2, 3, 6, 6, 3, 7
  , 0, 7, 3, 0, 4, 7
  , 0, 1, 5, 0, 5, 4 ]

/-- Embedding of `VERTICES` (src/state.rs:344-354): the quad/cube corners of the
state.rs copy (z components 0 and 1 rather than ±0.5). -/
def State.VERTICES : List Vertex :=
  [ ⟨(-0.5, -0.5, 0), (0, 0)⟩
  , ⟨(0.5, -0.5, 0), (1, 0)⟩
  , ⟨(0.5, 0.5, 0), (1, 1)⟩
  , ⟨(-0.5, 0.5, 0), (0, 1)⟩
  , ⟨(-0.5, -0.5, 1), (0, 0)⟩
  , ⟨(0.5, -0.5, 1), (1, 0)⟩
  , ⟨(0.5, 0.5, 1), (1, 1)⟩
  , ⟨(-0.5, 0.5, 1), (0, 1)⟩ ]

/-- Embedding of `INDICES` (src/state.rs:356-374): identical to the mesh.rs copy. -/
def State.INDICES : List ℕ :=
  [ 0, 2, 1, 0, 3, 2
  , 1, 2, 6, 6, 5, 1
  , 4, 5, 6, 6, 7, 4
  , 2, 3, 6, 6, 3, 7
  , 0, 7, 3, 0, 4, 7
  , 0, 1, 5, 0, 5, 4 ]

/-- Embedding of `cgmath::Matrix4::from_translation(v)`: homogeneous translation,
identity linear part, translation in the last column. The `f32`
arithmetic of `Instances::new` only ever produces small integers
(`(j - 2) * 2` for `j ∈ [-2, 2]`), on which `f32` is exact, so the
entries are embedded over `ℤ`. -/
def from_translation (x y z : ℤ) : Mat4 ℤ :=
  !![1, 0, 0, x;
     0, 1, 0, y;
     0, 0, 1, z;
     0, 0, 0, 1]

/-- The linear (rotation/scale) 3×3 block of a homogeneous 4×4 matrix. -/
def linearPart (m : Mat4 ℤ) : Matrix (Fin 3) (Fin 3) ℤ :=
  Matrix.of fun i j => m i.castSucc j.castSucc

/-- Embedding of `per_row` in `Instances::new` (src/instances.rs:125). -/
def Instances.perRow : ℤ := 4

/-- Embedding of `per_col` in `Instances::new` (src/instances.rs:126). -/
def Instances.perCol : ℤ := 4

/-- Embedding of `dx` in `Instances::new` (src/instances.rs:128), exact in `f32`. -/
def Instances.dx : ℤ := 2

/-- Embedding of `dy` in `Instances::new` (src/instances.rs:129), exact in `f32`. -/
def Instances.dy : ℤ := 2

/-- The `transformations` vector built by `Instances::new`
(src/instances.rs:130-138): `for i in 0..=per_row`, `for j in 0..per_col`,
push `from_translation(((j - per_row/2) * dx, (i - per_col/2) * dy, 0))`. -/
def Instances.transformations : List (Mat4 ℤ) :=
  (List.range (Instances.perRow.toNat + 1)).flatMap fun i =>
    (List.range Instances.perCol.toNat).map fun j =>
      from_translation (((j : ℤ) - Instances.perRow / 2) * Instances.dx)
        (((i : ℤ) - Instances.perCol / 2) * Instances.dy) 0

/-- Embedding of `Instances::count` (src/instances.rs:120-122): the length of the
transformation sequence. -/
def Instances.count : ℕ :=
  Instances.transformations.length

/-- Degrees to radians, as `cgmath::Deg` converts before `sin_cos`. -/
noncomputable def degRad (d : ℝ) : ℝ :=
  d * Real.pi / 180

/-- Embedding of `cgmath::Matrix4::from_angle_x(θ)`: rotation about the x axis. -/
noncomputable def from_angle_x (θ : ℝ) : Mat4 ℝ :=
  !![1, 0, 0, 0;
     0, Real.cos θ, -(Real.sin θ), 0;
     0, Real.sin θ, Real.cos θ, 0;
     0, 0, 0, 1]

/-- Embedding of `cgmath::Matrix4::from_angle_y(θ)`: rotation about the y axis. -/
noncomputable def from_angle_y (θ : ℝ) : Mat4 ℝ :=
  !![Real.cos θ, 0, Real.sin θ, 0;
     0, 1, 0, 0;
     -(Real.sin θ), 0, Real.cos θ, 0;
     0, 0, 0, 1]

/-- Embedding of `Rotator` (src/rotator.rs): fixed step matrix, accumulated rotation,
and `rotation_uniform` mirroring the uniform buffer contents. -/
structure Rotator where
  step : Mat4 ℝ
  rotation : Mat4 ℝ
  rotation_uniform : Mat4 ℝ

/-- Embedding of `Rotator::new` (src/rotator.rs:14-47): step is 1° about x composed
with 0.8° about y; rotation starts at the identity, mirrored into the
uniform buffer. -/
noncomputable def Rotator.new : Rotator :=
  { step := from_angle_x (degRad 1) * from_angle_y (degRad 0.8)
    rotation := 1
    rotation_uniform := 1 }

/-- Embedding of `Rotator::update` (src/rotator.rs:65-72): one right-multiplication of
the accumulated rotation by the step, then upload of the result. -/
noncomputable def Rotator.update (r : Rotator) : Rotator :=
  { r with
      rotation := r.rotation * r.step
      rotation_uniform := r.rotation * r.step }

/-- A concrete `State` as built by `State::new` for an 800×600 window:
36 indices, background color from cursor position (0,0). -/
noncomputable def exState : State :=
  { config := { width := 800, height := 600, format := 0, presentMode := 0 }
    size := (800, 600)
    backgroundColor := position_to_color 0 0
    numIndices := 36
    camera :=
      { controller := { pendingEvents := 0, viewProj := 1, consumes := true }
        uniform := 1 } }

/-- Recognizer for `set_bind_group` commands. -/
def Cmd.isSetBindGroup : Cmd → Bool
  | .setBindGroup _ _ => true
  | _ => false

/-- Recognizer for `set_vertex_buffer` commands. -/
def Cmd.isSetVertexBuffer : Cmd → Bool
  | .setVertexBuffer _ => true
  | _ => false

/-- Recognizer for draw commands (`draw` or `draw_indexed`). -/
def Cmd.isDrawCmd : Cmd → Bool
  | .drawIndexed _ _ _ => true
  | .draw _ _ => true
  | _ => false

/-! Theorems. -/

/-- Helper: iterating `Rotator::update` from `Rotator::new` preserves the
step matrix, accumulates `step ^ k` in `rotation`, and keeps the uniform
mirror equal to the accumulated rotation. -/
theorem Rotator.iterate_spec (k : ℕ) :
    (Rotator.update^[k] Rotator.new).step = Rotator.new.step ∧
    (Rotator.update^[k] Rotator.new).rotation = Rotator.new.step ^ k ∧
    (Rotator.update^[k] Rotator.new).rotation_uniform =
      (Rotator.update^[k] Rotator.new).rotation := by
  induction k with
  | zero => simp [Rotator.new]
  | succ n ih =>
    obtain ⟨hs, hr, _⟩ := ih
    rw [Function.iterate_succ_apply']
    refine ⟨?_, ?_, ?_⟩
    · simpa [Rotator.update] using hs
    · simp [Rotator.update, hs, hr, pow_succ]
    · simp [Rotator.update]

/-- Claim C4: before any update the accumulated rotation is the identity;
after `k` calls to `Rotator::update` it is `step ^ k` for the fixed step
matrix (1° about x composed with 0.8° about y), each update multiplying
the accumulated matrix by the step exactly once (and mirroring it into the
uniform). -/
theorem C4_rotation_is_step_pow (k : ℕ) :
    Rotator.new.rotation = 1 ∧
    Rotator.new.step = from_angle_x (degRad 1) * from_angle_y (degRad 0.8) ∧
    (Rotator.update^[k] Rotator.new).rotation = Rotator.new.step ^ k ∧
    (∀ r : Rotator,
      (Rotator.update r).rotation = r.rotation * r.step ∧
      (Rotator.update r).step = r.step ∧
      (Rotator.update r).rotation_uniform = (Rotator.update r).rotation) := by
  refine ⟨rfl, rfl, (Rotator.iterate_spec k).2.1, ?_⟩
  intro r
  exact ⟨rfl, rfl, rfl⟩

/-- Claim C5: `Instances::new` with the 4×4 grid parameters produces
exactly `(per_row + 1) * per_col = 20` transforms; the transform at flat
position `4 * i + j` (row `i` inclusive over `[0, 4]`, column `j`
exclusive over `[0, 4)`) is the pure translation by
`((j - 2) * 2, (i - 2) * 2, 0)` with identity linear part, and
`Instances::count` returns the sequence length 20. -/
theorem C5_instances_grid :
    Instances.transformations.length = 20 ∧
    (Instances.perRow.toNat + 1) * Instances.perCol.toNat = 20 ∧
    Instances.count = 20 ∧
    (∀ (i : Fin 5) (j : Fin 4),
      Instances.transformations.getD (4 * (i : ℕ) + (j : ℕ)) 0 =
        from_translation (((j : ℕ) - 2 : ℤ) * 2) (((i : ℕ) - 2 : ℤ) * 2) 0) ∧
    (∀ (i : Fin 5) (j : Fin 4),
      linearPart (Instances.transformations.getD (4 * (i : ℕ) + (j : ℕ)) 0) = 1) := by
  decide

/-- Claim C6: a resize request with a zero dimension is silently
rejected: the state (surface configuration and stored size) is returned
unchanged and the surface is not reconfigured. -/
theorem C6_resize_zero_rejected (s : State) (w h : ℕ) (h0 : w = 0 ∨ h = 0) :
    State.resize s w h = (s, false) := by
  rcases h0 with h0 | h0 <;> simp [State.resize, h0]

/-- Witness for C6 at a concrete state and the request `(0, 600)`. -/
theorem C6_witness : State.resize exState 0 600 = (exState, false) :=
  C6_resize_zero_rejected exState 0 600 (Or.inl rfl)

/-- Counterexample to claim C3: `State::resize` contains no 8192 upper
bound. Resizing the 800×600 state to `(8193, 600)` is accepted: the
width becomes 8193, the configuration changes, and the surface is
reconfigured — the prior configuration is not retained. -/
theorem C3_counterexample :
    exState.config.width = 800 ∧
    (State.resize exState 8193 600).1.config =
      { width := 8193, height := 600, format := 0, presentMode := 0 } ∧
    (State.resize exState 8193 600).1.config ≠ exState.config ∧
    (State.resize exState 8193 600).2 = true := by
  refine ⟨rfl, rfl, ?_, rfl⟩
  decide

/-- Claim C3 as amended: `State::resize` validates only that both
dimensions are positive; any positive request — including widths beyond
8192 such as 8193 — is accepted, updating the stored size and the config
width/height while retaining format and present mode, and reconfiguring
the surface. -/
theorem C3_amended_resize_no_upper_bound (s : State) (w h : ℕ)
    (hw : 0 < w) (hh : 0 < h) :
    State.resize s w h =
      ({ s with
          size := (w, h)
          config := { s.config with width := w, height := h } }, true) ∧
    (State.resize s w h).1.config.format = s.config.format ∧
    (State.resize s w h).1.config.presentMode = s.config.presentMode := by
  have hcond : 0 < w ∧ 0 < h := ⟨hw, hh⟩
  refine ⟨?_, ?_, ?_⟩ <;> simp [State.resize, hcond]

/-- Witness for the amended C3 at the concrete over-bound request. -/
theorem C3_amended_witness :
    State.resize exState 8193 600 =
      ({ exState with
          size := (8193, 600)
          config := { exState.config with width := 8193, height := 600 } }, true) ∧
    (State.resize exState 8193 600).1.config.format = exState.config.format ∧
    (State.resize exState 8193 600).1.config.presentMode = exState.config.presentMode :=
  C3_amended_resize_no_upper_bound exState 8193 600 (by decide) (by decide)

/-- Counterexample to claim C1: at a concrete state with successful
surface acquisition, the single submitted command buffer contains exactly
one render pass, not two, and that pass has no depth attachment — there
is no overlay pass and no depth clear in `State::render`
(src/state.rs:266-303). -/
theorem C1_counterexample :
    State.render exState (Except.ok ()) = Except.ok ([State.mainPass exState], exState) ∧
    [State.mainPass exState].length = 1 ∧
    [State.mainPass exState].length ≠ 2 ∧
    (State.mainPass exState).depthAttachment = none := by
  refine ⟨rfl, rfl, ?_, rfl⟩
  decide

/-- Claim C1 as amended: whenever surface-texture acquisition succeeds,
`State::render` returns `Ok(())`, submits exactly one command buffer
containing exactly one render pass, and that pass clears the color
attachment to the current background color and has no depth attachment;
acquisition failures are propagated unchanged. -/
theorem C1_amended_single_pass (s : State) (e : SurfaceError) :
    State.render s (Except.ok ()) = Except.ok ([State.mainPass s], s) ∧
    [State.mainPass s].length = 1 ∧
    (State.mainPass s).colorLoad = ColorLoadOp.clear s.backgroundColor ∧
    (State.mainPass s).depthAttachment = none ∧
    State.render s (Except.error e) = Except.error e :=
  ⟨rfl, rfl, rfl, rfl, rfl⟩

/-- Counterexample to claim C2: the main pass of `State::render` binds
exactly two bind groups (slot 0: diffuse texture, slot 1: camera
uniform), not four, and its only draw uses instance range `0..1` even
though `Instances::count` is 20. -/
theorem C2_counterexample :
    (State.mainPass exState).cmds.filter Cmd.isSetBindGroup =
      [Cmd.setBindGroup 0 BindGroupId.diffuse, Cmd.setBindGroup 1 BindGroupId.cameraGroup] ∧
    ((State.mainPass exState).cmds.filter Cmd.isSetBindGroup).length ≠ 4 ∧
    Instances.count = 20 ∧
    Cmd.drawIndexed (0, 36) 0 (0, 1) ∈ (State.mainPass exState).cmds ∧
    Cmd.drawIndexed (0, 36) 0 (0, Instances.count) ∉ (State.mainPass exState).cmds := by
  refine ⟨rfl, by decide, by decide, by decide, by decide⟩

/-- Claim C2 as amended: every execution of the (single) render pass of
`State::render` binds exactly two bind groups, in slot order 0 = diffuse
texture+sampler and 1 = camera uniform, and issues exactly one draw
command: an indexed draw over the full index range `[0, num_indices)`
with instance range `[0, 1)`. -/
theorem C2_amended_two_bind_groups (s : State) :
    (State.mainPass s).cmds.filter Cmd.isSetBindGroup =
      [Cmd.setBindGroup 0 BindGroupId.diffuse, Cmd.setBindGroup 1 BindGroupId.cameraGroup] ∧
    (State.mainPass s).cmds.filter Cmd.isDrawCmd =
      [Cmd.drawIndexed (0, s.numIndices) 0 (0, 1)] ∧
    (State.mainPass s).cmds.filter Cmd.isSetVertexBuffer = [Cmd.setVertexBuffer 0] :=
  ⟨rfl, rfl, rfl⟩

/-- Claim C7: `State::render` never mutates animator state. A successful
render returns the state unchanged — in particular the mirrored camera
uniform contents — and an immediately repeated render with no intervening
`State::update` produces the identical command buffer and state. -/
theorem C7_render_pure (s : State) (cb : CommandBuffer) (s' : State)
    (h : State.render s (Except.ok ()) = Except.ok (cb, s')) :
    s' = s ∧
    s'.camera.uniform = s.camera.uniform ∧
    State.render s' (Except.ok ()) = Except.ok (cb, s') := by
  have h' : Except.ok (ε := SurfaceError) ([State.mainPass s], s) = Except.ok (cb, s') := by
    simpa [State.render] using h
  injection h' with h''
  injection h'' with hcb hs
  subst hcb hs
  exact ⟨rfl, rfl, rfl⟩

/-- Witness for C7 at the concrete 800×600 state. -/
theorem C7_witness :
    exState = exState ∧
    exState.camera.uniform = exState.camera.uniform ∧
    State.render exState (Except.ok ()) = Except.ok ([State.mainPass exState], exState) :=
  C7_render_pure exState [State.mainPass exState] exState rfl

/-- Claim C8: the depth-overlay pass loads (does not clear) the color
attachment, has no depth attachment, sets no vertex buffer, and issues
exactly one draw of 3 vertices and 1 instance; the overlay pipeline is
built with alpha blending, no depth/stencil state, and no vertex buffer
layouts. -/
theorem C8_overlay_pass (encoder : List RenderPass) :
    DepthView.render encoder = encoder ++ [DepthView.overlayPass] ∧
    DepthView.overlayPass.colorLoad = ColorLoadOp.load ∧
    DepthView.overlayPass.depthAttachment = none ∧
    DepthView.overlayPass.cmds.filter Cmd.isSetVertexBuffer = [] ∧
    DepthView.overlayPass.cmds.filter Cmd.isDrawCmd = [Cmd.draw (0, 3) (0, 1)] ∧
    DepthView.create_depth_render_pipeline.alphaBlending = true ∧
    DepthView.create_depth_render_pipeline.hasDepthStencil = false ∧
    DepthView.create_depth_render_pipeline.vertexBufferLayouts = 0 :=
  ⟨rfl, rfl, rfl, rfl, rfl, rfl, rfl, rfl⟩

/-- Claim C9: `position_to_color` is a pure function computing exactly
the documented cosine/sine formulas, every channel lies in `[0, 1]` with
alpha 1, and a cursor-move event sets the background color to this value,
is reported consumed, and changes nothing else in the state. -/
theorem C9_position_to_color (x y : ℝ) (s : State) :
    (position_to_color x y).r = (Real.cos (x * Real.pi / 128) + 1) / 2 ∧
    (position_to_color x y).g = (Real.sin (y * Real.pi / 128) + 1) / 2 ∧
    (position_to_color x y).b = (Real.cos ((x + y) * Real.pi / 256) + 1) / 2 ∧
    (position_to_color x y).a = 1 ∧
    0 ≤ (position_to_color x y).r ∧ (position_to_color x y).r ≤ 1 ∧
    0 ≤ (position_to_color x y).g ∧ (position_to_color x y).g ≤ 1 ∧
    0 ≤ (position_to_color x y).b ∧ (position_to_color x y).b ≤ 1 ∧
    State.input s (Event.cursorMoved x y) =
      (true, { s with backgroundColor := position_to_color x y }) := by
  refine ⟨rfl, rfl, rfl, rfl, ?_, ?_, ?_, ?_, ?_, ?_, rfl⟩
  · have h1 := Real.neg_one_le_cos (x * Real.pi / 128)
    simp only [position_to_color]
    linarith
  · have h1 := Real.cos_le_one (x * Real.pi / 128)
    simp only [position_to_color]
    linarith
  · have h1 := Real.neg_one_le_sin (y * Real.pi / 128)
    simp only [position_to_color]
    linarith
  · have h1 := Real.sin_le_one (y * Real.pi / 128)
    simp only [position_to_color]
    linarith
  · have h1 := Real.neg_one_le_cos ((x + y) * Real.pi / 256)
    simp only [position_to_color]
    linarith
  · have h1 := Real.cos_le_one ((x + y) * Real.pi / 256)
    simp only [position_to_color]
    linarith

/-- Claim C10: all 36 cube indices are strictly below the vertex count 8,
in both the mesh.rs and the state.rs copies of the arrays, so the indexed
draw over the full index range only references in-bounds vertices. -/
theorem C10_indices_in_bounds :
    Mesh.INDICES.length = 36 ∧
    Mesh.VERTICES.length = 8 ∧
    Mesh.INDICES.all (fun i => decide (i < Mesh.VERTICES.length)) = true ∧
    State.INDICES = Mesh.INDICES ∧
    State.VERTICES.length = 8 ∧
    State.INDICES.all (fun i => decide (i < State.VERTICES.length)) = true := by
  decide
